import Mathlib

/-!
# ForecastBot — change-detection and state-tracking core

A shallow embedding of the decision logic of `src/fetch_forecast_v2.py` and
`src/fetch_forecast.py` (repository Mvanhuffel/ForecastBot), written to check
the natural-language specification of the change-detection core against the
code.

Modelling conventions:
* JSON scalars carried by the feed and the persisted state file are modelled
  by the inductive `Json`; a cell of the fetched DataFrame that can serve as
  an identifier is an `IdVal` (a Python `int`, a Python `str`, or pandas
  `NaN` standing for a missing cell).
* Python `==` between such values is the function `pyEq`: an `int` never
  equals a `str`, and `NaN` equals nothing (including itself), exactly as in
  Python.  Lean's structural `=` on `IdVal` is used only in meta-level
  statements, never to model a Python comparison.
* A Python dict is an association list in insertion order (Python ≥ 3.7
  preserves it); dict assignment is `dinsert`, dict lookup is `lookupState`,
  dict key membership is the corresponding `any` test.
* Ambient I/O of the scripts (reading the state file, `datetime.now`, the
  exported CSV) is passed in as explicit parameters; file-system effects of
  `main`/`save_seen_ids` are reified as explicit event/operation lists.
-/

namespace ForecastBot

/-- A JSON value, as handled by `json.load`/`json.dump` and by the fetched
API response (`r.json()` in `fetch_forecast`). -/
inductive Json where
  | null : Json
  | bool (b : Bool) : Json
  | num (n : Int) : Json
  | str (s : String) : Json
  | arr (xs : List Json) : Json
  | obj (kvs : List (String × Json)) : Json

/-- An identifier value as it sits in the `ID` column of the fetched
DataFrame: a JSON number (Python `int`), a JSON string, or pandas `NaN`
(the fill value for a record that lacks the field). -/
inductive IdVal where
  | num (n : Int) : IdVal
  | str (s : String) : IdVal
  | nan : IdVal
deriving DecidableEq

/-- Python `==` between two identifier-like values: `int` vs `str` is always
`False`, and `NaN == x` is always `False` (even for `x = NaN`). -/
def pyEq : IdVal → IdVal → Bool
  | .num a, .num b => a == b
  | .str a, .str b => a == b
  | _, _ => false

/-- Python `str(row_id)` as applied on line 131 of `fetch_forecast_v2.py`:
the decimal rendering for an `int`, the string itself for a `str`, and
`"nan"` for the float `NaN`. -/
def strId : IdVal → String
  | .num n => toString n
  | .str s => s
  | .nan => "nan"

/-- One normalized catalog record: a row of the filtered DataFrame.  `id` is
its `ID` cell; `fields` the full row (column name, already uppercased, to
cell value). -/
structure Record where
  id : IdVal
  fields : List (String × Json)

/-- The persisted seen-state: the JSON object written to
`seen_ids_v2.json`, a Python `Dict[str, str]` from id string to last-seen
date string, in insertion order. -/
abbrev SeenState := List (String × String)

/-- The keys of a state dict (`seen_ids.keys()`). -/
def keysOf (st : SeenState) : List String := st.map Prod.fst

/-- Python dict lookup `st[k]` (as an `Option`): the value at the first —
in a genuine dict, only — entry with key `k`. -/
def lookupState (st : SeenState) (k : String) : Option String :=
  (st.find? (fun kv => kv.1 == k)).map Prod.snd

/-- Python dict assignment `st[k] = v`: overwrite in place when the key
exists, append a new entry otherwise. -/
def dinsert (st : SeenState) (k v : String) : SeenState :=
  if st.any (fun kv => kv.1 == k) then
    st.map (fun kv => if kv.1 == k then (k, v) else kv)
  else
    st ++ [(k, v)]

/-- Python `row_id in seen_ids` (line 112 of `fetch_forecast_v2.py`): the
raw cell value is compared with `==` against the dict's string keys. -/
def inSeen (st : SeenState) (id : IdVal) : Bool :=
  st.any (fun kv => pyEq (.str kv.1) id)

/-- Lines 112–113 of `fetch_forecast_v2.py`: `new_df` is the rows whose raw
`ID` is not a key of the loaded state. -/
def newRecords (snap : List Record) (prior : SeenState) : List Record :=
  snap.filter (fun r => !(inSeen prior r.id))

/-- Line 116 of `fetch_forecast_v2.py`:
`disappeared_ids = set(seen_ids.keys()) - current_ids` — the string keys
whose value (compared with Python `==`) matches no current raw id. -/
def disappearedIds (prior : SeenState) (snap : List Record) : List String :=
  (keysOf prior).filter (fun k => !(snap.any (fun r => pyEq r.id (.str k))))

/-- Lines 117–127 of `fetch_forecast_v2.py`: the disappeared rows are read
from the last exported CSV (`hist`, `none` when the file is missing or
empty) and filtered with `.isin(disappeared_ids)` — again Python `==`
between the stored cell and the string keys.  When `disappeared_ids` is
empty the block is skipped and the empty DataFrame stands. -/
def disappearedRows (hist : Option (List Record)) (dis : List String) : List Record :=
  if dis.isEmpty then []
  else
    match hist with
    | none => []
    | some rows => rows.filter (fun r => dis.any (fun k => pyEq r.id (.str k)))

/-- Lines 129–131 of `fetch_forecast_v2.py`: every current raw id is written
back under its `str(...)` rendering with value `today`.  The source iterates
the set `current_ids`; since every write stores the same value `today`, the
resulting dict does not depend on that iteration order, and we fold in
snapshot order. -/
def updateSeen (prior : SeenState) (snap : List Record) (today : String) : SeenState :=
  snap.foldl (fun acc r => dinsert acc (strId r.id) today) prior

/-- The Change Detector's output for one run (the spec's ChangeSet):
`appeared` is `new_df`, `disIds` is `disappeared_ids`, `disappeared` is
`disappeared_df`, `updatedState` the dict returned to `main` for saving. -/
structure ChangeSet where
  appeared : List Record
  disIds : List String
  disappeared : List Record
  updatedState : SeenState

/-- `process_opportunities` (lines 102–133 of `fetch_forecast_v2.py`), with
its ambient inputs injected: the loaded state `prior`, the exported CSV
`hist` and the current date `today`. -/
def process_opportunities (snap : List Record) (prior : SeenState)
    (hist : Option (List Record)) (today : String) : ChangeSet :=
  { appeared := newRecords snap prior
  , disIds := disappearedIds prior snap
  , disappeared := disappearedRows hist (disappearedIds prior snap)
  , updatedState := updateSeen prior snap today }

/-! ## State Store: `load_seen_ids` / `save_seen_ids` -/

/-- The on-disk condition of the state file seen by `open` + `json.load`:
absent (`FileNotFoundError`), present but not valid JSON
(`json.JSONDecodeError`), or a successfully parsed JSON value. -/
inductive StateFile where
  | missing : StateFile
  | garbled (raw : String) : StateFile
  | stored (v : Json) : StateFile

/-- The JSON object `json.dump` writes for a `Dict[str, str]` state. -/
def stateJson (st : SeenState) : Json :=
  .obj (st.map (fun kv => (kv.1, Json.str kv.2)))

/-- `save_seen_ids` (lines 59–62 of `fetch_forecast_v2.py`), at the level of
the value stored: the state dict dumped as a JSON object. -/
def save_seen_ids (st : SeenState) : StateFile :=
  .stored (stateJson st)

/-- `load_seen_ids` (lines 51–57 of `fetch_forecast_v2.py`): the parsed JSON
value, with `FileNotFoundError` and `json.JSONDecodeError` both caught and
downgraded to the empty dict `{}`.  A file holding valid JSON of any shape
is returned as-is (no shape check in the source). -/
def load_seen_ids : StateFile → Json
  | .missing => .obj []
  | .garbled _ => .obj []
  | .stored v => v

/-- The entries of a parsed JSON object as a `Dict[str, str]` state:
defined exactly when every value is a string. -/
def objEntriesToState : List (String × Json) → Option SeenState
  | [] => some []
  | (k, .str s) :: rest => (objEntriesToState rest).map (fun st => (k, s) :: st)
  | _ => none

/-- Reads a parsed JSON value back as a `Dict[str, str]` state: defined
exactly when the value is an object all of whose values are strings. -/
def jsonToState : Json → Option SeenState
  | .obj kvs => objEntriesToState kvs
  | _ => none

/-- `load_seen_ids` of `fetch_forecast.py` (lines 50–55): the v1 loader
returns `set(json.load(f))`, with the same two exceptions caught and
downgraded to the empty set.  `set(...)` of a parsed JSON value: a list
yields its elements, an object its keys, a string its characters; a number,
boolean or null is not iterable, so `set(...)` raises a `TypeError` that the
`except` clause does not catch. -/
def load_seen_ids_v1 : StateFile → Except String (List IdVal)
  | .missing => .ok []
  | .garbled _ => .ok []
  | .stored (.arr xs) =>
      .ok (xs.map (fun j =>
        match j with
        | .num n => .num n
        | .str s => .str s
        | _ => .nan))
  | .stored (.obj kvs) => .ok (kvs.map (fun kv => .str kv.1))
  | .stored (.str s) => .ok (s.toList.map (fun c => .str (String.singleton c)))
  | .stored _ => .error "TypeError"

/-! ## The file-system operations of a save

`save_seen_ids` writes with `open(seen_ids_path, "w")` followed by
`json.dump`: the target file itself is opened for writing (which truncates
it in place) and then written.  The operation list makes the crash-safety
strategy of the source inspectable. -/

/-- A file-system operation performed while persisting state. -/
inductive FsOp where
  | openTrunc (path : String) : FsOp
  | write (path : String) (data : Json) : FsOp
  | rename (src dst : String) : FsOp

/-- Whether an operation is a rename. -/
def FsOp.isRen : FsOp → Bool
  | .rename _ _ => true
  | _ => false

/-- The path of the v2 state file (`seen_ids_path`, line 35 of
`fetch_forecast_v2.py`, relative to the project root). -/
def seen_ids_path : String := "data/processed/seen_ids_v2.json"

/-- The I/O trace of `save_seen_ids` (lines 59–62 of
`fetch_forecast_v2.py`): open the final path in mode `"w"` (truncating
whatever is there), then write the dumped JSON.  No temporary file, no
rename. -/
def save_seen_ids_ops (st : SeenState) : List FsOp :=
  [.openTrunc seen_ids_path, .write seen_ids_path (stateJson st)]

/-! ## Snapshot Normalizer: `main`'s fetch-and-filter prefix -/

/-- One raw record of the API response: a mapping from field name to JSON
value (one element of the list `r.json()` returns). -/
abbrev RawRec := List (String × Json)

/-- Python `str.upper()` on a column name (the feed's names are ASCII),
written by structural recursion over the characters so that concrete runs
reduce inside the kernel. -/
def upperName (s : String) : String :=
  String.mk (s.data.map Char.toUpper)

/-- `df.columns.str.upper()` (line 141 of `fetch_forecast_v2.py`) applied to
one record's keys. -/
def upperKeys (raw : RawRec) : List (String × Json) :=
  raw.map (fun kv => (upperName kv.1, kv.2))

/-- Whether the DataFrame built from `recs` has column `c` after the
uppercasing: pandas takes the union of the records' keys as the columns, and
`df[c]` raises a `KeyError` when `c` is not among them. -/
def hasCol (recs : List RawRec) (c : String) : Bool :=
  recs.any (fun raw => (upperKeys raw).any (fun kv => kv.1 == c))

/-- The cell of one record at (uppercased) column `c`: `none` models the
`NaN` pandas fills in for a record that lacks the key. -/
def getCell (raw : RawRec) (c : String) : Option Json :=
  ((upperKeys raw).find? (fun kv => kv.1 == c)).map Prod.snd

/-- The fixed category filter string (line 144 of `fetch_forecast_v2.py`,
line 70 of `fetch_forecast.py`). -/
def targetNaics : String := "541612 - Human Resources Consulting Services"

/-- `df[df["NAICS"] == target]` (line 145): a row passes only when its
`NAICS` cell is a string equal to the target; a missing cell is `NaN`, which
compares unequal to everything. -/
def filterNaics (recs : List RawRec) (target : String) : List RawRec :=
  recs.filter (fun raw =>
    match getCell raw "NAICS" with
    | some (.str s) => s == target
    | _ => false)

/-- An `ID` cell as an identifier value.  The feed's id column holds JSON
numbers or strings; any other cell (including a JSON `null`, which pandas
also renders as a missing value) is treated as `NaN`. -/
def jsonToId : Json → IdVal
  | .num n => .num n
  | .str s => .str s
  | _ => .nan

/-- A filtered raw record as the internal `Record`: the `ID` cell (pandas
`NaN` when the record lacks the field) plus the full uppercased row. -/
def mkRecord (raw : RawRec) : Record :=
  { id := match getCell raw "ID" with
          | some j => jsonToId j
          | none => .nan
  , fields := upperKeys raw }

/-- The fetch-and-filter prefix of `main` (`fetch_forecast_v2.py` lines
139–146 and the `df["ID"]` access on line 109): uppercase the columns,
filter on `NAICS` (a `KeyError` — a failed run — when that column does not
exist), then read the `ID` column (a `KeyError` when it does not exist; a
record lacking the field merely carries `NaN`). -/
def buildSnapshot (recs : List RawRec) (target : String) :
    Except String (List Record) :=
  if hasCol recs "NAICS" = false then .error "KeyError: NAICS"
  else if hasCol recs "ID" = false then .error "KeyError: ID"
  else .ok ((filterNaics recs target).map mkRecord)

/-! ## Run Orchestrator: the order of effects in `main` -/

/-- An externally visible effect of a run, in program order. -/
inductive Event where
  | saveState (st : SeenState) : Event
  | saveV1 : Event
  | writeCsv : Event
  | postNew (n : Nat) : Event
  | postDisappeared (n : Nat) : Event

/-- Whether an event persists seen-state. -/
def Event.isSave : Event → Bool
  | .saveState _ => true
  | .saveV1 => true
  | _ => false

/-- Whether an event is a notification delivery (`post_to_teams`). -/
def Event.isPost : Event → Bool
  | .postNew _ => true
  | .postDisappeared _ => true
  | _ => false

/-- A run's observable history: the effects it performed, in program order,
and `some err` when the run then raised (main's `except` clause logs and
exits non-zero) — a raising run keeps the effects already performed. -/
structure RunTrace where
  events : List Event
  outcome : Option String

/-- The source columns (API names, after uppercasing) that the export step
`df_export = df_filtered.rename(...)[desired_columns]` requires: the
selection raises a `KeyError` unless every one of the 23 desired columns
exists in the renamed frame, i.e. unless every one of these exists in the
fetched frame (`fetch_forecast_v2.py` lines 162–201, `fetch_forecast.py`
lines 90–184). -/
def exportSourceCols : List String :=
  ["ID", "NAICS", "ORGANIZATION", "REQUIREMENTS_TITLE", "CONTRACT_TYPE",
   "CONTRACT_VEHICLE", "DOLLAR_RANGE", "SMALL_BUSINESS_SET_ASIDE",
   "SMALL_BUSINESS_PROGRAM", "CONTRACT_STATUS", "CONTRACT_NUMBER",
   "CONTRACTOR", "PLACE_OF_PERFORMANCE_CITY", "PLACE_OF_PERFORMANCE_STATE",
   "REQUIREMENTS_CONTACT_FIRST_NAME", "REQUIREMENTS_CONTACT_LAST_NAME",
   "REQUIREMENTS_CONTACT_PHONE", "REQUIREMENTS_CONTACT_EMAIL",
   "REQUIREMENT", "AWARD_QUARTER", "ESTIMATED_SOLICITATION_RELEASE_DATE",
   "PUBLISH_DATE", "PREVIOUS_PUBLISH_DATE"]

/-- The columns the notification blocks read from a row
(`format_opportunity_block`, `fetch_forecast_v2.py` lines 64–75, and the
v1 block loop, `fetch_forecast.py` lines 195–214): `row[c]` raises a
`KeyError` when the row's frame lacks column `c`. -/
def blockCols : List String :=
  ["ORGANIZATION", "NAICS", "ESTIMATED_PERIOD_OF_PERFORMANCE_START",
   "DOLLAR_RANGE", "COMPETITIVE", "REQUIREMENT"]

/-- Whether a row (a Series indexed by its frame's columns) carries field
`c`. -/
def rowHasField (r : Record) (c : String) : Bool :=
  r.fields.any (fun kv => kv.1 == c)

/-- The effects of `main` of `fetch_forecast_v2.py` *after* the state save
on line 152, with the places that can raise: the export selection (lines
200–201, a `KeyError` before any CSV is written unless all
`exportSourceCols` are present), the CSV writes (lines 202–203, one event
for both `to_csv` calls), the new-opportunities post (lines 207–215, whose
blocks read `blockCols` from rows of the fetched frame), and the
disappeared post (lines 218–229, whose blocks read `blockCols` from the
rows of the exported CSV — the rows of one CSV share one column set, so
the per-row check coincides with the frame's column check). -/
def postSaveEvents (recs : List RawRec) (cs : ChangeSet) :
    List Event × Option String :=
  if (exportSourceCols.all (fun c => hasCol recs c)) = false then
    ([], some "KeyError: export columns")
  else if cs.appeared.isEmpty then
    if cs.disappeared.isEmpty then ([Event.writeCsv], none)
    else if (cs.disappeared.all (fun r =>
        blockCols.all (fun c => rowHasField r c))) = false then
      ([Event.writeCsv], some "KeyError: disappeared row fields")
    else ([Event.writeCsv, Event.postDisappeared cs.disappeared.length], none)
  else if (blockCols.all (fun c => hasCol recs c)) = false then
    ([Event.writeCsv], some "KeyError: block columns")
  else if cs.disappeared.isEmpty then
    ([Event.writeCsv, Event.postNew cs.appeared.length], none)
  else if (cs.disappeared.all (fun r =>
      blockCols.all (fun c => rowHasField r c))) = false then
    ([Event.writeCsv, Event.postNew cs.appeared.length],
     some "KeyError: disappeared row fields")
  else
    ([Event.writeCsv, Event.postNew cs.appeared.length,
      Event.postDisappeared cs.disappeared.length], none)

/-- `main` of `fetch_forecast_v2.py` (lines 135–235) as its run trace: the
fetch-and-filter prefix can raise before any effect; otherwise the state
save (line 152) is the first effect, followed by `postSaveEvents` — a
`KeyError` later in the run keeps the effects already performed. -/
def mainEvents (recs : List RawRec) (prior : SeenState)
    (hist : Option (List Record)) (today : String) : RunTrace :=
  match buildSnapshot recs targetNaics with
  | .error e => ⟨[], some e⟩
  | .ok snap =>
      let cs := process_opportunities snap prior hist today
      let t := postSaveEvents recs cs
      ⟨Event.saveState cs.updatedState :: t.1, t.2⟩

/-- Lines 76–78 of `fetch_forecast.py`: the v1 new rows, a raw-id membership
test against the loaded set. -/
def newRecordsV1 (snap : List Record) (prior : List IdVal) : List Record :=
  snap.filter (fun r => !(prior.any (fun p => pyEq p r.id)))

/-- `main` of `fetch_forecast.py` (lines 61–245) as its run trace: after
filtering, when no row is new the run returns early (line 82) with no
effects; the export selection (line 184) raises before any effect unless
all `exportSourceCols` are present; then the CSVs are written (lines 187,
191, one event for both), the block loop (lines 195–214) raises unless the
`blockCols` are present, the notification is posted (line 235), and only
then are the seen ids saved (lines 238–239). -/
def mainEventsV1 (recs : List RawRec) (prior : List IdVal) : RunTrace :=
  match buildSnapshot recs targetNaics with
  | .error e => ⟨[], some e⟩
  | .ok snap =>
      let newR := newRecordsV1 snap prior
      if newR.isEmpty then ⟨[], none⟩
      else if (exportSourceCols.all (fun c => hasCol recs c)) = false then
        ⟨[], some "KeyError: export columns"⟩
      else if (blockCols.all (fun c => hasCol recs c)) = false then
        ⟨[Event.writeCsv], some "KeyError: block columns"⟩
      else ⟨[Event.writeCsv, Event.postNew newR.length, Event.saveV1], none⟩

/-- The ordering property the spec demands of a run's event trace: every
notification delivery is preceded by a state save. -/
def SaveBeforePosts (evs : List Event) : Prop :=
  ∀ i : Fin evs.length, (evs.get i).isPost = true →
    ∃ j : Fin evs.length, j.val < i.val ∧ (evs.get j).isSave = true

instance (evs : List Event) : Decidable (SaveBeforePosts evs) := by
  unfold SaveBeforePosts; infer_instance

/-- A feed record carrying every column the run touches (the 23 export
source columns plus the two extra block columns), so that a run on it
reaches the notification and the save. -/
def fullColsRow : RawRec :=
  [("ID", Json.num 5), ("NAICS", Json.str targetNaics),
   ("ORGANIZATION", Json.str "o"), ("REQUIREMENTS_TITLE", Json.str "t"),
   ("CONTRACT_TYPE", Json.str "ct"), ("CONTRACT_VEHICLE", Json.str "cv"),
   ("DOLLAR_RANGE", Json.str "dr"),
   ("SMALL_BUSINESS_SET_ASIDE", Json.str "sb"),
   ("SMALL_BUSINESS_PROGRAM", Json.str "sp"),
   ("CONTRACT_STATUS", Json.str "st"), ("CONTRACT_NUMBER", Json.str "cn"),
   ("CONTRACTOR", Json.str "co"),
   ("PLACE_OF_PERFORMANCE_CITY", Json.str "c"),
   ("PLACE_OF_PERFORMANCE_STATE", Json.str "s"),
   ("REQUIREMENTS_CONTACT_FIRST_NAME", Json.str "f"),
   ("REQUIREMENTS_CONTACT_LAST_NAME", Json.str "l"),
   ("REQUIREMENTS_CONTACT_PHONE", Json.str "p"),
   ("REQUIREMENTS_CONTACT_EMAIL", Json.str "e"),
   ("REQUIREMENT", Json.str "r"), ("AWARD_QUARTER", Json.str "q"),
   ("ESTIMATED_SOLICITATION_RELEASE_DATE", Json.str "d"),
   ("PUBLISH_DATE", Json.str "pd"),
   ("PREVIOUS_PUBLISH_DATE", Json.str "ppd"),
   ("ESTIMATED_PERIOD_OF_PERFORMANCE_START", Json.str "ps"),
   ("COMPETITIVE", Json.str "y")]

/-! ## Dictionary lemmas -/

theorem find?_key_of_any (st : SeenState) (k v : String)
    (h : st.any (fun kv => kv.1 == k) = true) :
    (st.map (fun kv => if kv.1 == k then (k, v) else kv)).find?
      (fun kv => kv.1 == k) = some (k, v) := by
  induction st with
  | nil => simp at h
  | cons kv t ih =>
    rw [List.map_cons]
    by_cases hc : (kv.1 == k) = true
    · rw [if_pos hc]
      exact List.find?_cons_of_pos (p := fun kv => kv.1 == k)
        (a := ((k, v) : String × String)) _ (by simp)
    · have hcf : (kv.1 == k) = false := by
        cases hb : (kv.1 == k) with
        | true => exact absurd hb hc
        | false => rfl
      rw [if_neg hc,
          List.find?_cons_of_neg (p := fun kv => kv.1 == k) (a := kv) _ hc]
      apply ih
      simp only [List.any_cons, hcf, Bool.false_or] at h
      exact h

theorem lookup_dinsert_self (st : SeenState) (k v : String) :
    lookupState (dinsert st k v) k = some v := by
  unfold dinsert
  cases h : st.any (fun kv => kv.1 == k) with
  | true =>
    rw [if_pos rfl]
    unfold lookupState
    rw [find?_key_of_any st k v h]
    rfl
  | false =>
    rw [if_neg Bool.false_ne_true]
    unfold lookupState
    rw [List.find?_append]
    have hnone : st.find? (fun kv => kv.1 == k) = none := by
      rw [List.find?_eq_none]
      intro x hx hpx
      have hray := (List.any_eq_true (p := fun kv => kv.1 == k)).mpr ⟨x, hx, hpx⟩
      rw [h] at hray
      exact Bool.false_ne_true hray
    rw [hnone]
    simp

theorem find?_map_upd_ne (st : SeenState) (k v k' : String) (h : k' ≠ k) :
    (st.map (fun kv => if kv.1 == k then (k, v) else kv)).find?
      (fun kv => kv.1 == k') = st.find? (fun kv => kv.1 == k') := by
  have hkk : (k == k') = false := beq_eq_false_iff_ne.mpr (fun e => h e.symm)
  induction st with
  | nil => rfl
  | cons kv t ih =>
    rw [List.map_cons]
    by_cases h1 : (kv.1 == k) = true
    · have hk1 : kv.1 = k := by simpa using h1
      have h2 : ¬((kv.1 == k') = true) := by
        rw [hk1, hkk]; exact Bool.false_ne_true
      rw [if_pos h1,
          List.find?_cons_of_neg (p := fun kv => kv.1 == k')
            (a := ((k, v) : String × String)) _ (by simp [hkk]),
          List.find?_cons_of_neg (p := fun kv => kv.1 == k') (a := kv) _ h2,
          ih]
    · by_cases h2 : (kv.1 == k') = true
      · rw [if_neg h1,
            List.find?_cons_of_pos (p := fun kv => kv.1 == k') (a := kv) _ h2,
            List.find?_cons_of_pos (p := fun kv => kv.1 == k') (a := kv) _ h2]
      · rw [if_neg h1,
            List.find?_cons_of_neg (p := fun kv => kv.1 == k') (a := kv) _ h2,
            List.find?_cons_of_neg (p := fun kv => kv.1 == k') (a := kv) _ h2,
            ih]

theorem lookup_dinsert_ne (st : SeenState) (k v k' : String) (h : k' ≠ k) :
    lookupState (dinsert st k v) k' = lookupState st k' := by
  have hkk : (k == k') = false := beq_eq_false_iff_ne.mpr (fun e => h e.symm)
  unfold dinsert
  cases hc : st.any (fun kv => kv.1 == k) with
  | true =>
    rw [if_pos rfl]
    unfold lookupState
    rw [find?_map_upd_ne st k v k' h]
  | false =>
    rw [if_neg Bool.false_ne_true]
    unfold lookupState
    rw [List.find?_append]
    have h1 : ([((k : String), (v : String))].find? (fun kv => kv.1 == k')) = none := by
      simp [hkk]
    rw [h1]
    simp

theorem lookup_updateSeen (snap : List Record) (st : SeenState) (d k : String) :
    lookupState (updateSeen st snap d) k =
      if snap.any (fun r => strId r.id == k) then some d
      else lookupState st k := by
  induction snap generalizing st with
  | nil => simp [updateSeen]
  | cons r rest ih =>
    have hstep : updateSeen st (r :: rest) d
        = updateSeen (dinsert st (strId r.id) d) rest d := rfl
    rw [hstep, ih]
    by_cases hr : rest.any (fun r => strId r.id == k) = true
    · rw [if_pos hr, if_pos (by simp [List.any_cons, hr])]
    · have hrf : rest.any (fun r => strId r.id == k) = false := by
        cases hb : rest.any (fun r => strId r.id == k) with
        | true => exact absurd hb hr
        | false => rfl
      by_cases hk : strId r.id = k
      · rw [if_neg hr, if_pos (by simp [List.any_cons, hk]), hk,
            lookup_dinsert_self]
      · rw [if_neg hr,
            if_neg (by simp [List.any_cons, hrf, hk]),
            lookup_dinsert_ne _ _ _ _ (fun e => hk e.symm)]

theorem mem_keys_dinsert (st : SeenState) (k v a : String)
    (h : a ∈ keysOf st) : a ∈ keysOf (dinsert st k v) := by
  unfold dinsert
  cases hc : st.any (fun kv => kv.1 == k) with
  | true =>
    rw [if_pos rfl]
    unfold keysOf at h ⊢
    obtain ⟨kv, hkv, rfl⟩ := List.mem_map.mp h
    apply List.mem_map.mpr
    refine ⟨if kv.1 == k then (k, v) else kv, List.mem_map_of_mem _ hkv, ?_⟩
    by_cases h1 : (kv.1 == k) = true
    · have : kv.1 = k := by simpa using h1
      rw [if_pos h1, this]
    · rw [if_neg h1]
  | false =>
    rw [if_neg Bool.false_ne_true]
    unfold keysOf at h ⊢
    rw [List.map_append]
    exact List.mem_append_left _ h

theorem mem_keys_updateSeen (snap : List Record) (st : SeenState)
    (d a : String) (h : a ∈ keysOf st) : a ∈ keysOf (updateSeen st snap d) := by
  induction snap generalizing st with
  | nil => exact h
  | cons r rest ih =>
    exact ih (dinsert st (strId r.id) d) (mem_keys_dinsert st (strId r.id) d a h)

theorem state_roundtrip (st : SeenState) :
    jsonToState (load_seen_ids (save_seen_ids st)) = some st := by
  show objEntriesToState (st.map (fun kv => (kv.1, Json.str kv.2))) = some st
  induction st with
  | nil => rfl
  | cons kv t ih =>
    rw [List.map_cons]
    show (objEntriesToState (t.map (fun kv => (kv.1, Json.str kv.2)))).map
        (fun st => (kv.1, kv.2) :: st) = some (kv :: t)
    rw [ih]
    rfl

theorem mem_disappearedRows (hist : Option (List Record)) (dis : List String)
    (r : Record) (h : r ∈ disappearedRows hist dis) :
    ∃ rows, hist = some rows ∧ r ∈ rows := by
  unfold disappearedRows at h
  by_cases hd : dis.isEmpty = true
  · rw [if_pos hd] at h
    exact absurd h (List.not_mem_nil r)
  · rw [if_neg hd] at h
    cases hist with
    | none => exact absurd h (List.not_mem_nil r)
    | some rows => exact ⟨rows, rfl, (List.mem_filter.mp h).1⟩

/-! ## The claims -/

/-- C2 (confirmed): Conservation — every id occurring in the snapshot ends
up as a key of `updatedState` (under the state's key encoding `str(row_id)`,
the only form in which an id can be a key of the string-keyed dict) with the
run's date `today` as its value, whether or not the id was previously
seen. -/
theorem c2_conservation (snap : List Record) (prior : SeenState)
    (hist : Option (List Record)) (today : String) (r : Record)
    (h : r ∈ snap) :
    lookupState (process_opportunities snap prior hist today).updatedState
      (strId r.id) = some today := by
  show lookupState (updateSeen prior snap today) (strId r.id) = some today
  rw [lookup_updateSeen,
      if_pos (List.any_eq_true.mpr ⟨r, h, by simp⟩)]

/-- Witness for C2: the record with numeric id 7, never seen before, is
stored under key `"7"` with value `"2024-06-01"`. -/
theorem c2_conservation_witness :
    lookupState (process_opportunities [{ id := .num 7, fields := [] }]
      [] none "2024-06-01").updatedState (strId (IdVal.num 7))
      = some "2024-06-01" :=
  c2_conservation [{ id := .num 7, fields := [] }] [] none "2024-06-01"
    { id := .num 7, fields := [] } (List.Mem.head _)

/-- C4 (confirmed): the id-type mismatch across persistence — the update
loop stores keys as `str(row_id)` while the appearance test compares the
raw `row_id` with the loaded keys and `disappeared_ids` subtracts raw ids
from string keys; so for any snapshot whose ids are not strings, after the
state has been saved and reloaded every record of the next run is
classified as appeared again and every stored key as disappeared. -/
theorem c4_type_mismatch_reappearance
    (snap snap2 : List Record) (prior st2 : SeenState)
    (hist hist2 : Option (List Record)) (d d2 : String)
    (hids : ∀ r ∈ snap2, ∀ s, r.id ≠ IdVal.str s)
    (hload : jsonToState (load_seen_ids (save_seen_ids
        (process_opportunities snap prior hist d).updatedState)) = some st2) :
    (process_opportunities snap2 st2 hist2 d2).appeared = snap2
    ∧ (process_opportunities snap2 st2 hist2 d2).disIds = keysOf st2 := by
  constructor
  · show newRecords snap2 st2 = snap2
    unfold newRecords
    apply List.filter_eq_self.mpr
    intro r hr
    have hseen : inSeen st2 r.id = false := by
      unfold inSeen
      apply List.any_eq_false.mpr
      intro kv hkv
      cases hid : r.id with
      | str s => exact absurd hid (hids r hr s)
      | num n => simp [pyEq]
      | nan => simp [pyEq]
    simp [hseen]
  · show disappearedIds st2 snap2 = keysOf st2
    unfold disappearedIds
    apply List.filter_eq_self.mpr
    intro k hk
    have hnone : snap2.any (fun r => pyEq r.id (.str k)) = false := by
      apply List.any_eq_false.mpr
      intro r hr
      cases hid : r.id with
      | str s => exact absurd hid (hids r hr s)
      | num n => simp [pyEq]
      | nan => simp [pyEq]
    simp [hnone]

/-- Witness for C4: id 7 is stored as `"7"` by a first run; after the
save/load round-trip, the same snapshot is wholly re-reported as appeared
and the stored key `"7"` as disappeared. -/
theorem c4_type_mismatch_reappearance_witness :
    (process_opportunities [{ id := .num 7, fields := [] }]
      [("7", "2024-01-05")] none "2024-03-01").appeared
      = [{ id := .num 7, fields := [] }]
    ∧ (process_opportunities [{ id := .num 7, fields := [] }]
      [("7", "2024-01-05")] none "2024-03-01").disIds
      = keysOf [("7", "2024-01-05")] :=
  c4_type_mismatch_reappearance
    [{ id := .num 7, fields := [] }] [{ id := .num 7, fields := [] }]
    [] [("7", "2024-01-05")] none none "2024-01-05" "2024-03-01"
    (by
      intro r hr s
      rw [List.mem_singleton.mp hr]
      exact fun he => IdVal.noConfusion he)
    (state_roundtrip _)

/-- C10 (confirmed): persistence round-trip — for every non-empty
`SeenState` (a genuine mapping: no duplicate keys), loading immediately
after saving returns the state that was saved, with no id lost. -/
theorem c10_persistence_roundtrip (st : SeenState)
    (hne : st ≠ []) (hnodup : (keysOf st).Nodup) :
    jsonToState (load_seen_ids (save_seen_ids st)) = some st :=
  state_roundtrip st

/-- Witness for C10: a one-entry state round-trips unchanged. -/
theorem c10_persistence_roundtrip_witness :
    jsonToState (load_seen_ids (save_seen_ids [("123", "2024-01-01")]))
      = some [("123", "2024-01-01")] :=
  c10_persistence_roundtrip [("123", "2024-01-01")] (by simp)
    (by simp [keysOf])

/-- C8 (confirmed): corrupt-state recovery — whether the state file is
missing or unparseable, both loaders return the empty state (the v2 dict
loader yields `{}`, the v1 set loader the empty set) and neither branch can
raise: the catch clauses cover exactly these two conditions. -/
theorem c8_corrupt_state_recovery :
    (load_seen_ids .missing = .obj []
      ∧ jsonToState (load_seen_ids .missing) = some ([] : SeenState))
    ∧ (∀ raw : String, load_seen_ids (.garbled raw) = .obj []
      ∧ jsonToState (load_seen_ids (.garbled raw)) = some ([] : SeenState))
    ∧ (load_seen_ids_v1 .missing = .ok []
      ∧ ∀ raw : String, load_seen_ids_v1 (.garbled raw) = .ok []) :=
  ⟨⟨rfl, rfl⟩, fun _ => ⟨rfl, rfl⟩, rfl, fun _ => rfl⟩

/-- C1 (code bug): the second of two identical runs is *not* silent.  With
prior state `{"2": "2024-01-01"}` and a snapshot holding the numeric id
`1`, the first run stores `{"2": "2024-01-01", "1": "2024-06-01"}`; the
second run on that state re-reports the record as appeared (the raw `1` is
not `==` any string key) and reports both retained keys as disappeared —
the spec requires both sets empty. -/
theorem c1_second_run_not_idempotent :
    ((process_opportunities [{ id := .num 1, fields := [] }]
        (process_opportunities [{ id := .num 1, fields := [] }]
          [("2", "2024-01-01")] none "2024-06-01").updatedState
        none "2024-06-01").appeared.isEmpty = false)
    ∧ ((process_opportunities [{ id := .num 1, fields := [] }]
        (process_opportunities [{ id := .num 1, fields := [] }]
          [("2", "2024-01-01")] none "2024-06-01").updatedState
        none "2024-06-01").disIds = ["2", "1"]) :=
  ⟨rfl, rfl⟩

/-- C7 (code bug): `save_seen_ids` opens the final state path itself in
truncating write mode and writes into it — its operation trace contains no
temporary file and no rename, so a crash between the truncation and the
completed write leaves a partial state file. -/
theorem c7_save_overwrites_in_place :
    save_seen_ids_ops [("1", "2024-01-01")]
      = [.openTrunc seen_ids_path,
         .write seen_ids_path (Json.obj [("1", Json.str "2024-01-01")])]
    ∧ (save_seen_ids_ops [("1", "2024-01-01")]).all
        (fun op => !(FsOp.isRen op)) = true :=
  ⟨rfl, rfl⟩

/-- C3 (counterexample): the claim fails as stated.  With prior state
`{"1": "2024-01-01"}` and a snapshot holding only the numeric id `1`, the
string key `"1"` matches no snapshot id under Python `==` — so the claim
requires its `lastSeenDate` to stay `"2024-01-01"` — yet the update loop
writes `str(1) = "1"`, overwriting it with today's date. -/
theorem c3_counterexample :
    ¬ ((∀ k, k ∈ keysOf [("1", "2024-01-01")] →
          k ∈ keysOf (process_opportunities [{ id := .num 1, fields := [] }]
            [("1", "2024-01-01")] none "2024-06-01").updatedState)
      ∧ (∀ k, k ∈ keysOf [("1", "2024-01-01")] →
          (([{ id := IdVal.num 1, fields := [] }] : List Record).any
            (fun r => pyEq r.id (.str k))) = false →
          lookupState (process_opportunities [{ id := .num 1, fields := [] }]
            [("1", "2024-01-01")] none "2024-06-01").updatedState k
            = lookupState [("1", "2024-01-01")] k)
      ∧ (∀ r ∈ ([{ id := IdVal.num 1, fields := [] }] : List Record),
          (∃ kv ∈ ([("1", "2024-01-01")] : SeenState),
            r.id = IdVal.str kv.1) →
          r ∉ (process_opportunities [{ id := .num 1, fields := [] }]
            [("1", "2024-01-01")] none "2024-06-01").appeared)) := by
  intro h
  exact absurd (h.2.1 "1" (by decide) (by decide)) (by decide)

/-- C3 (corrected): every key of the prior state remains a key of
`updatedState` (no id is ever deleted); each prior key that is not the
`str(row_id)` rendering of any snapshot id keeps its prior `lastSeenDate`
unchanged (the original "absent from the snapshot" condition must compare
string renderings, because the update loop writes keys through `str`); and
a record whose id is (as a Python value) a key of the prior state is never
included in `appeared`. -/
theorem c3_retention_amended (snap : List Record) (prior : SeenState)
    (hist : Option (List Record)) (today : String) :
    (∀ k, k ∈ keysOf prior →
        k ∈ keysOf (process_opportunities snap prior hist today).updatedState)
    ∧ (∀ k, k ∈ keysOf prior →
        (snap.any (fun r => strId r.id == k)) = false →
        lookupState (process_opportunities snap prior hist today).updatedState k
          = lookupState prior k)
    ∧ (∀ r ∈ snap, (∃ kv ∈ prior, r.id = IdVal.str kv.1) →
        r ∉ (process_opportunities snap prior hist today).appeared) := by
  refine ⟨?_, ?_, ?_⟩
  · intro k hk
    exact mem_keys_updateSeen snap prior today k hk
  · intro k hk hab
    show lookupState (updateSeen prior snap today) k = _
    rw [lookup_updateSeen, if_neg (by simp [hab])]
  · rintro r hr ⟨kv, hkv, hid⟩ hmem
    have hsplit := List.mem_filter.mp hmem
    have hseen : inSeen prior r.id = true := by
      unfold inSeen
      exact List.any_eq_true.mpr ⟨kv, hkv, by rw [hid]; simp [pyEq]⟩
    simp [hseen] at hsplit

/-- Witness for C3 (corrected): prior `{"1": ..., "2": ...}`, snapshot the
string id `"1"`: key `"2"` is retained with its old date, and the record
with already-seen id `"1"` is not reported as appeared. -/
theorem c3_retention_amended_witness :
    ("2" ∈ keysOf (process_opportunities
        [{ id := IdVal.str "1", fields := [] }]
        [("1", "2024-01-01"), ("2", "2024-02-02")] none
        "2024-06-01").updatedState)
    ∧ (lookupState (process_opportunities
        [{ id := IdVal.str "1", fields := [] }]
        [("1", "2024-01-01"), ("2", "2024-02-02")] none
        "2024-06-01").updatedState "2"
        = lookupState [("1", "2024-01-01"), ("2", "2024-02-02")] "2")
    ∧ ({ id := IdVal.str "1", fields := ([] : List (String × Json)) } ∉
        (process_opportunities [{ id := IdVal.str "1", fields := [] }]
          [("1", "2024-01-01"), ("2", "2024-02-02")] none
          "2024-06-01").appeared) := by
  obtain ⟨h1, h2, h3⟩ := c3_retention_amended
    [{ id := IdVal.str "1", fields := [] }]
    [("1", "2024-01-01"), ("2", "2024-02-02")] none "2024-06-01"
  exact ⟨h1 "2" (by decide), h2 "2" (by decide) (by decide),
    h3 _ (List.Mem.head _) ⟨("1", "2024-01-01"), List.Mem.head _, rfl⟩⟩

/-- C5 (counterexample): the claim fails as stated.  With prior state
`{"9": "2024-01-01"}`, an empty snapshot and an exported CSV that exists
but has no row for id `"9"`, the disappeared record output is empty — no
best-effort-empty entry is produced for `"9"`. -/
theorem c5_counterexample :
    ¬ (∀ k, k ∈ keysOf [("9", "2024-01-01")] →
        (([] : List Record).any (fun r => pyEq r.id (.str k))) = false →
        ∃ r, r ∈ (process_opportunities [] [("9", "2024-01-01")]
            (some []) "2024-06-01").disappeared ∧ strId r.id = k) := by
  intro h
  obtain ⟨r, hr, _⟩ := h "9" (by decide) (by decide)
  have hnil : (process_opportunities [] [("9", "2024-01-01")]
      (some []) "2024-06-01").disappeared = [] := rfl
  rw [hnil] at hr
  exact List.not_mem_nil r hr

/-- C5 (corrected): every id present in the prior state and absent from the
current snapshot is included in the disappeared *id set*; but its record
entry appears in the disappeared output only when the exported CSV has a
matching row — every disappeared-output row comes from the export, so an id
with no export row (or a missing export) is dropped from the record output
rather than reported with best-effort-empty attributes. -/
theorem c5_disappeared_amended (snap : List Record) (prior : SeenState)
    (hist : Option (List Record)) (today : String) (k : String)
    (hk : k ∈ keysOf prior)
    (habs : (snap.any (fun r => pyEq r.id (.str k))) = false) :
    k ∈ (process_opportunities snap prior hist today).disIds
    ∧ ∀ r ∈ (process_opportunities snap prior hist today).disappeared,
        ∃ rows, hist = some rows ∧ r ∈ rows := by
  constructor
  · show k ∈ disappearedIds prior snap
    unfold disappearedIds
    exact List.mem_filter.mpr ⟨hk, by simp [habs]⟩
  · intro r hr
    exact mem_disappearedRows hist _ r hr

/-- Witness for C5 (corrected): id `"9"` of the prior state, absent from
the empty snapshot, is in the disappeared id set; with a missing export
every disappeared-output row (there are none) comes from the export. -/
theorem c5_disappeared_amended_witness :
    ("9" ∈ (process_opportunities [] [("9", "2024-01-01")]
        none "2024-06-01").disIds)
    ∧ ∀ r ∈ (process_opportunities [] [("9", "2024-01-01")]
        none "2024-06-01").disappeared,
        ∃ rows, (none : Option (List Record)) = some rows ∧ r ∈ rows :=
  c5_disappeared_amended [] [("9", "2024-01-01")] none "2024-06-01" "9"
    (List.Mem.head _) rfl

theorem saveBeforePosts_nil : SaveBeforePosts [] := by
  intro i
  exact absurd i.isLt (Nat.not_lt_zero i.val)

theorem saveBeforePosts_cons_save (st : SeenState) (l : List Event) :
    SaveBeforePosts (Event.saveState st :: l) := by
  intro i hpost
  rcases i with ⟨iv, hiv⟩
  cases iv with
  | zero => exact absurd hpost (by simp [Event.isPost])
  | succ n =>
    exact ⟨⟨0, Nat.lt_of_lt_of_le (Nat.succ_pos n) (Nat.le_of_lt hiv)⟩,
      Nat.succ_pos n, rfl⟩

/-- C6 (counterexample): the claim fails for the original orchestrator.
On a feed record carrying every column the run touches, the run of
`fetch_forecast.py`'s `main` completes (outcome `none`) with the trace
`[writeCsv, postNew 1, saveV1]`: the notification is posted before the seen
ids are saved, so the delivery is attempted before the state is
persisted. -/
theorem c6_counterexample :
    (mainEventsV1 [fullColsRow] []).events
      = [Event.writeCsv, Event.postNew 1, Event.saveV1]
    ∧ (mainEventsV1 [fullColsRow] []).outcome = none
    ∧ ¬ SaveBeforePosts (mainEventsV1 [fullColsRow] []).events := by
  refine ⟨rfl, rfl, ?_⟩
  intro h
  rw [show (mainEventsV1 [fullColsRow] []).events
      = [Event.writeCsv, Event.postNew 1, Event.saveV1] from rfl] at h
  exact absurd h (by decide)

/-- C6 (corrected): in the v2 orchestrator (`fetch_forecast_v2.py`'s
`main`), every run's trace either is empty (the run raised before reaching
any effect) or starts with the save of the updated state — so the state is
persisted before the CSV export and before any notification delivery is
attempted, whether or not the run later raises; in the original
`fetch_forecast.py`, the notification is posted before the seen ids are
saved. -/
theorem c6_persist_order_amended (recs : List RawRec) (prior : SeenState)
    (hist : Option (List Record)) (today : String) :
    ((mainEvents recs prior hist today).events = []
      ∨ ∃ snap, buildSnapshot recs targetNaics = Except.ok snap
          ∧ (mainEvents recs prior hist today).events.head?
            = some (Event.saveState
                (process_opportunities snap prior hist today).updatedState))
    ∧ SaveBeforePosts (mainEvents recs prior hist today).events := by
  cases hb : buildSnapshot recs targetNaics with
  | error e =>
    have hev : (mainEvents recs prior hist today).events = [] := by
      unfold mainEvents
      rw [hb]
    rw [hev]
    exact ⟨Or.inl rfl, saveBeforePosts_nil⟩
  | ok snap =>
    have hev : (mainEvents recs prior hist today).events
        = Event.saveState
            (process_opportunities snap prior hist today).updatedState
          :: (postSaveEvents recs
              (process_opportunities snap prior hist today)).1 := by
      unfold mainEvents
      rw [hb]
    rw [hev]
    exact ⟨Or.inr ⟨snap, rfl, rfl⟩, saveBeforePosts_cons_save _ _⟩

/-- Witness for C6 (corrected): a concrete v2 run on a full-column record —
the trace starts with the state save, and every post comes later. -/
theorem c6_persist_order_amended_witness :
    ((mainEvents [fullColsRow] [] none "2024-06-01").events = []
      ∨ ∃ snap, buildSnapshot [fullColsRow] targetNaics = Except.ok snap
          ∧ (mainEvents [fullColsRow] [] none "2024-06-01").events.head?
            = some (Event.saveState
                (process_opportunities snap [] none "2024-06-01").updatedState))
    ∧ SaveBeforePosts (mainEvents [fullColsRow] [] none "2024-06-01").events :=
  c6_persist_order_amended [fullColsRow] [] none "2024-06-01"

/-- C9 (counterexample): the claim fails as stated.  When every record
lacks the id field (here: one record with only a matching `NAICS` field),
the DataFrame has no `ID` column, so `df["ID"]` raises a `KeyError` and the
run aborts — it does not proceed with an empty Snapshot. -/
theorem c9_counterexample :
    buildSnapshot [[("naics", Json.str targetNaics)]] targetNaics
      = Except.error "KeyError: ID"
    ∧ ¬ (∃ snap, buildSnapshot [[("naics", Json.str targetNaics)]]
        targetNaics = Except.ok snap) := by
  refine ⟨rfl, ?_⟩
  rintro ⟨snap, hs⟩
  rw [show buildSnapshot [[("naics", Json.str targetNaics)]] targetNaics
      = Except.error "KeyError: ID" from rfl] at hs
  exact Except.noConfusion hs

/-- C9 (corrected): a record lacking the id field is *not* excluded from
the Snapshot — when some record in the batch has an id column, an id-less
record is carried through with a `NaN` id; and when no record has an id
column at all, the run aborts with a `KeyError` instead of proceeding with
an empty Snapshot. -/
theorem c9_schema_amended (recs : List RawRec)
    (hn : hasCol recs "NAICS" = true) :
    (hasCol recs "ID" = false →
      buildSnapshot recs targetNaics = Except.error "KeyError: ID")
    ∧ (∀ snap, buildSnapshot recs targetNaics = Except.ok snap →
        ∀ raw ∈ filterNaics recs targetNaics,
          mkRecord raw ∈ snap
          ∧ (getCell raw "ID" = none → (mkRecord raw).id = IdVal.nan)) := by
  constructor
  · intro hid
    unfold buildSnapshot
    rw [if_neg (by simp [hn]), if_pos hid]
  · intro snap hs raw hraw
    unfold buildSnapshot at hs
    rw [if_neg (by simp [hn])] at hs
    by_cases hid : hasCol recs "ID" = false
    · rw [if_pos hid] at hs
      exact absurd hs (by simp)
    · rw [if_neg hid] at hs
      obtain rfl := (Except.ok.inj hs).symm
      refine ⟨List.mem_map_of_mem _ hraw, ?_⟩
      intro hcell
      show (match getCell raw "ID" with
            | some j => jsonToId j
            | none => IdVal.nan) = IdVal.nan
      rw [hcell]

/-- Witness for C9 (corrected): a batch of two category-matching records,
the second without an id field — the snapshot keeps both, the id-less one
with a `NaN` id. -/
theorem c9_schema_amended_witness :
    (hasCol [[("naics", Json.str targetNaics), ("id", Json.num 5)],
        [("naics", Json.str targetNaics)]] "ID" = false →
      buildSnapshot [[("naics", Json.str targetNaics), ("id", Json.num 5)],
        [("naics", Json.str targetNaics)]] targetNaics
        = Except.error "KeyError: ID")
    ∧ (∀ snap, buildSnapshot
        [[("naics", Json.str targetNaics), ("id", Json.num 5)],
         [("naics", Json.str targetNaics)]] targetNaics = Except.ok snap →
        ∀ raw ∈ filterNaics
          [[("naics", Json.str targetNaics), ("id", Json.num 5)],
           [("naics", Json.str targetNaics)]] targetNaics,
          mkRecord raw ∈ snap
          ∧ (getCell raw "ID" = none → (mkRecord raw).id = IdVal.nan)) :=
  c9_schema_amended
    [[("naics", Json.str targetNaics), ("id", Json.num 5)],
     [("naics", Json.str targetNaics)]] rfl

end ForecastBot
